import Mathlib

/-!
Shallow embedding of the `idem_provider_libvirt` execution modules
(`virt/exec/virt/domain.py`, `virt/exec/virt/node.py`) and proofs of the
specification claims about them.

Python dictionaries are modelled as insertion-ordered association lists over
a Python-like value type `Pv`; `xml.etree.ElementTree` elements are modelled
by `XmlNode`; libvirt / subprocess / filesystem interactions are modelled as
oracle fields of explicit environment records, each either returning a value
or raising a Python exception (`PyErr`).
-/

/-- Python-like runtime values: strings, integers, booleans, `None`,
dictionaries (insertion-ordered association lists) and lists. -/
inductive Pv where
  | vstr (s : String)
  | vint (n : Int)
  | vbool (b : Bool)
  | vnone
  | vdict (entries : List (String × Pv))
  | vlist (xs : List Pv)
deriving Repr

mutual

/-- Structural equality on `Pv`, mirroring Python `==` on these values. -/
def Pv.beq : Pv → Pv → Bool
  | .vstr a, .vstr b => a == b
  | .vint a, .vint b => a == b
  | .vbool a, .vbool b => a == b
  | .vnone, .vnone => true
  | .vdict a, .vdict b => Pv.beqEntries a b
  | .vlist a, .vlist b => Pv.beqList a b
  | _, _ => false

/-- Equality of dictionary entry lists, component of `Pv.beq`. -/
def Pv.beqEntries : List (String × Pv) → List (String × Pv) → Bool
  | [], [] => true
  | (k1, v1) :: t1, (k2, v2) :: t2 => k1 == k2 && Pv.beq v1 v2 && Pv.beqEntries t1 t2
  | _, _ => false

/-- Equality of value lists, component of `Pv.beq`. -/
def Pv.beqList : List Pv → List Pv → Bool
  | [], [] => true
  | a :: as, b :: bs => Pv.beq a b && Pv.beqList as bs
  | _, _ => false

end

mutual

theorem Pv.beq_iff : ∀ a b : Pv, Pv.beq a b = true ↔ a = b
  | .vstr a, .vstr b => by simp [Pv.beq]
  | .vint a, .vint b => by simp [Pv.beq]
  | .vbool a, .vbool b => by simp [Pv.beq]
  | .vnone, .vnone => by simp [Pv.beq]
  | .vdict a, .vdict b => by simp [Pv.beq, Pv.beqEntries_iff a b]
  | .vlist a, .vlist b => by simp [Pv.beq, Pv.beqList_iff a b]
  | .vstr _, .vint _ => by simp [Pv.beq]
  | .vstr _, .vbool _ => by simp [Pv.beq]
  | .vstr _, .vnone => by simp [Pv.beq]
  | .vstr _, .vdict _ => by simp [Pv.beq]
  | .vstr _, .vlist _ => by simp [Pv.beq]
  | .vint _, .vstr _ => by simp [Pv.beq]
  | .vint _, .vbool _ => by simp [Pv.beq]
  | .vint _, .vnone => by simp [Pv.beq]
  | .vint _, .vdict _ => by simp [Pv.beq]
  | .vint _, .vlist _ => by simp [Pv.beq]
  | .vbool _, .vstr _ => by simp [Pv.beq]
  | .vbool _, .vint _ => by simp [Pv.beq]
  | .vbool _, .vnone => by simp [Pv.beq]
  | .vbool _, .vdict _ => by simp [Pv.beq]
  | .vbool _, .vlist _ => by simp [Pv.beq]
  | .vnone, .vstr _ => by simp [Pv.beq]
  | .vnone, .vint _ => by simp [Pv.beq]
  | .vnone, .vbool _ => by simp [Pv.beq]
  | .vnone, .vdict _ => by simp [Pv.beq]
  | .vnone, .vlist _ => by simp [Pv.beq]
  | .vdict _, .vstr _ => by simp [Pv.beq]
  | .vdict _, .vint _ => by simp [Pv.beq]
  | .vdict _, .vbool _ => by simp [Pv.beq]
  | .vdict _, .vnone => by simp [Pv.beq]
  | .vdict _, .vlist _ => by simp [Pv.beq]
  | .vlist _, .vstr _ => by simp [Pv.beq]
  | .vlist _, .vint _ => by simp [Pv.beq]
  | .vlist _, .vbool _ => by simp [Pv.beq]
  | .vlist _, .vnone => by simp [Pv.beq]
  | .vlist _, .vdict _ => by simp [Pv.beq]

theorem Pv.beqEntries_iff : ∀ a b : List (String × Pv), Pv.beqEntries a b = true ↔ a = b
  | [], [] => by simp [Pv.beqEntries]
  | [], _ :: _ => by simp [Pv.beqEntries]
  | _ :: _, [] => by simp [Pv.beqEntries]
  | (k1, v1) :: t1, (k2, v2) :: t2 => by
      simp [Pv.beqEntries, Pv.beq_iff v1 v2, Pv.beqEntries_iff t1 t2, and_assoc]

theorem Pv.beqList_iff : ∀ a b : List Pv, Pv.beqList a b = true ↔ a = b
  | [], [] => by simp [Pv.beqList]
  | [], _ :: _ => by simp [Pv.beqList]
  | _ :: _, [] => by simp [Pv.beqList]
  | a :: as, b :: bs => by
      simp [Pv.beqList, Pv.beq_iff a b, Pv.beqList_iff as bs]

end

instance : DecidableEq Pv := fun a b => decidable_of_iff _ (Pv.beq_iff a b)

/-- A Python dictionary with string keys, in insertion order. -/
abbrev Dict := List (String × Pv)

/-- Python `d[k]` / `k in d`: first binding of key `k`, if any. -/
def pyGet (d : Dict) (k : String) : Option Pv :=
  (d.find? (fun p => p.1 == k)).map (fun p => p.2)

/-- Python `d[k] = v`: replace the binding in place if the key is present,
otherwise append it, preserving insertion order. -/
def pySet (d : Dict) (k : String) (v : Pv) : Dict :=
  if d.any (fun p => p.1 == k) then
    d.map (fun p => if p.1 == k then (k, v) else p)
  else
    d ++ [(k, v)]

/-- Python `d.update(e)`: apply `pySet` for each binding of `e` in order. -/
def pyUpdate (d : Dict) (e : Dict) : Dict :=
  e.foldl (fun acc p => pySet acc p.1 p.2) d

/-- A parsed XML element in the style of `xml.etree.ElementTree`: tag,
attributes (in document order), optional text, child elements. -/
inductive XmlNode where
  | elem (tag : String) (attrib : List (String × String)) (text : Option String)
      (children : List XmlNode)
deriving Repr

/-- Tag of an element. -/
def XmlNode.tag : XmlNode → String
  | .elem t _ _ _ => t

/-- Attribute list of an element. -/
def XmlNode.attrib : XmlNode → List (String × String)
  | .elem _ a _ _ => a

/-- Text of an element (`None` when absent). -/
def XmlNode.text : XmlNode → Option String
  | .elem _ _ t _ => t

/-- Child elements of an element. -/
def XmlNode.children : XmlNode → List XmlNode
  | .elem _ _ _ c => c

/-- ElementTree `element.get(key)`: attribute value or `None`. -/
def XmlNode.getAttr (n : XmlNode) (k : String) : Option String :=
  (n.attrib.find? (fun p => p.1 == k)).map (fun p => p.2)

/-- ElementTree `findall` over a `a/b/c` child path, in document order. -/
def findallPath : XmlNode → List String → List XmlNode
  | n, [] => [n]
  | n, s :: rest => (n.children.filter (fun c => c.tag == s)).flatMap
      (fun c => findallPath c rest)

/-- ElementTree `find` over a child path: first match in document order. -/
def findPath (n : XmlNode) (path : List String) : Option XmlNode :=
  (findallPath n path).head?

/-- Python exception classes that the modelled code can raise or catch. -/
inductive PyErr where
  | typeError
  | fileNotFound
  | valueError
  | indexError
  | attributeError
  | nameError
  | exception (msg : String)
deriving DecidableEq, Repr

/-- Python `value in text` substring test at the start: does `hay` start with
`needle`? -/
def seqStarts : List Char → List Char → Bool
  | [], _ => true
  | _ :: _, [] => false
  | a :: as, b :: bs => a == b && seqStarts as bs

/-- Python `needle in hay` substring containment on character lists. -/
def seqIn (needle : List Char) : List Char → Bool
  | [] => needle.isEmpty
  | c :: t => seqStarts needle (c :: t) || seqIn needle t

/-- Python `needle in hay` on strings. -/
def strIn (needle hay : String) : Bool :=
  seqIn needle.data hay.data

/-- A libvirt domain handle: the data its modelled methods return.
`infoRaw` is the `dom.info()` tuple `[state, maxMem, mem, nrVirtCpu,
cpuTime]`; `xmlDesc` is `dom.XMLDesc(0)` in parsed form. -/
structure Dom where
  name : String
  infoRaw : List Int
  xmlDesc : XmlNode

/-- One entry of a parsed `snapshots` JSON list of `qemu-img info`.  The
`datetime` formatting of the `date`/`vmclock` fields (domain.py:362-366)
involves floating-point timestamps and is kept abstract as precomputed
ISO strings. -/
structure QemuSnapshot where
  snapId : Pv
  snapName : String
  vmStateSize : Int
  dateIso : String
  vmclockIso : String

/-- One layer of the decoded `qemu-img info --backing-chain` JSON output. -/
structure QemuImgLayer where
  filename : String
  imgFormat : String
  actualSize : Int
  virtualSize : Int
  clusterSize : Option Int
  fullBackingFilename : Option String
  snapshots : Option (List QemuSnapshot)

/-- Lift an optional string to a Python value (`None` when absent). -/
def optStr : Option String → Pv
  | some s => .vstr s
  | none => .vnone

namespace VirtDomain

/-- `VIRT_STATE_NAME_MAP` (domain.py:15-21). -/
def VIRT_STATE_NAME_MAP : List (Int × String) :=
  [(0, "running"), (1, "running"), (2, "running"), (3, "paused"),
   (4, "shutdown"), (5, "shutdown"), (6, "crashed")]

/-- Python `VIRT_STATE_NAME_MAP.get(code, 'unknown')` (domain.py:180). -/
def virtStateName (code : Int) : String :=
  ((VIRT_STATE_NAME_MAP.find? (fun p => p.1 == code)).map (fun p => p.2)).getD "unknown"

/-- Per-layer descriptor build of `_parse_qemu_img_info` (domain.py:344-368). -/
def buildDisk (d : QemuImgLayer) : Dict :=
  let disk : Dict :=
    [("file", .vstr d.filename),
     ("file format", .vstr d.imgFormat),
     ("disk size", .vint d.actualSize),
     ("virtual size", .vint d.virtualSize),
     ("cluster size", match d.clusterSize with | some n => .vint n | none => .vnone)]
  let disk := match d.fullBackingFilename with
    | some p => pySet disk "backing file" (.vstr p)  -- format(s) on a str is s itself
    | none => disk
  match d.snapshots with
  | some snaps => pySet disk "snapshots" (.vlist (snaps.map (fun s =>
      .vdict [("id", s.snapId), ("tag", .vstr s.snapName), ("vmsize", .vint s.vmStateSize),
              ("date", .vstr s.dateIso), ("vmclock", .vstr s.vmclockIso)])))
  | none => disk

/-- Candidate lookup of the re-linking pass (domain.py:372): the first layer of
the current list whose `file` entry equals the given backing-file value. -/
def findBacking (cur : List Dict) (backing : Pv) : Option Dict :=
  (cur.filter (fun layer => match pyGet layer "file" with
    | some f => Pv.beq f backing
    | none => false)).head?

/-- The re-linking loop of `_parse_qemu_img_info` (domain.py:370-374).  Python
mutates each layer dictionary in place; this is modelled by state passing: the
layer being processed sees the already-updated earlier layers (`done`) and the
untouched later ones (`rest`).  The value-passing model agrees with Python's
aliasing semantics whenever every backing reference points at a layer that
occurs earlier in the list. -/
def relinkGo (done : List Dict) : List Dict → List Dict
  | [] => done
  | d :: rest =>
    let cur := done ++ d :: rest
    let d' := match pyGet d "backing file" with
      | some bf => match findBacking cur bf with
        | some cand => pySet d "backing file" (.vdict cand)
        | none => d
      | none => d
    relinkGo (done ++ [d']) rest

/-- `_parse_qemu_img_info` (domain.py:338-376), starting from the decoded JSON
layer list: build the per-layer dictionaries, run the re-linking pass, return
the first layer (`disks[0]`; IndexError on an empty list). -/
def _parse_qemu_img_info (raws : List QemuImgLayer) : Except PyErr Dict :=
  match relinkGo [] (raws.map buildDisk) with
  | [] => .error .indexError
  | d :: _ => .ok d

/-- `_get_uuid` (domain.py:273-283): text of the first `uuid` element; Python
raises AttributeError (`None.text`) when the element is absent.  Like the
other XML helpers it takes the parsed `dom.XMLDesc(0)` document. -/
def _get_uuid (doc : XmlNode) : Except PyErr Pv :=
  match findPath doc ["uuid"] with
  | some n => .ok (optStr n.text)
  | none => .error .attributeError

/-- `_get_on_poweroff` (domain.py:421-426). -/
def _get_on_poweroff (doc : XmlNode) : Pv :=
  match findPath doc ["on_poweroff"] with
  | some n => optStr n.text
  | none => .vstr ""

/-- `_get_on_reboot` (domain.py:429-434). -/
def _get_on_reboot (doc : XmlNode) : Pv :=
  match findPath doc ["on_reboot"] with
  | some n => optStr n.text
  | none => .vstr ""

/-- `_get_on_crash` (domain.py:437-442). -/
def _get_on_crash (doc : XmlNode) : Pv :=
  match findPath doc ["on_crash"] with
  | some n => optStr n.text
  | none => .vstr ""

/-- The initial `out` template of `_get_graphics` (domain.py:326-330). -/
def graphicsTemplate : Dict :=
  [("autoport", .vstr "None"), ("keymap", .vstr "None"), ("listen", .vstr "None"),
   ("port", .vstr "None"), ("type", .vstr "None")]

/-- `_get_graphics` (domain.py:322-335): fold the attributes of every
`devices/graphics` element over the template, in document order. -/
def _get_graphics (doc : XmlNode) : Dict :=
  (findallPath doc ["devices", "graphics"]).foldl
    (fun out g => g.attrib.foldl (fun out p => pySet out p.1 (.vstr p.2)) out)
    graphicsTemplate

/-- The per-child update loop of `_get_nics` (domain.py:293-315).  The
`re.match('(driver|source|address)', tag)` test anchors at the start of the
tag, hence the `startsWith` checks. -/
def nicOfIface (iface : XmlNode) : Dict :=
  iface.children.foldl (fun nic v =>
    let nic := if v.tag == "mac" then pySet nic "mac" (optStr (v.getAttr "address")) else nic
    let nic := if v.tag == "model" then pySet nic "model" (optStr (v.getAttr "type")) else nic
    let nic := if v.tag == "target" then pySet nic "target" (optStr (v.getAttr "dev")) else nic
    let nic := if v.tag.startsWith "driver" || v.tag.startsWith "source" ||
        v.tag.startsWith "address"
      then pySet nic v.tag (.vdict (v.attrib.map (fun p => (p.1, Pv.vstr p.2)))) else nic
    let nic := if v.tag == "virtualport"
      then pySet nic "virtualport" (.vdict (pyUpdate [("type", optStr (v.getAttr "type"))]
        (v.attrib.map (fun p => (p.1, Pv.vstr p.2))))) else nic
    nic)
    [("type", optStr (iface.getAttr "type"))]

/-- `_get_nics` (domain.py:286-319): NIC map keyed by MAC address; interfaces
without a `mac` child are dropped.  (When the `mac` element lacks an `address`
attribute Python keys the map by `None`; that corner is modelled by the empty
string key.) -/
def _get_nics (doc : XmlNode) : Dict :=
  (findallPath doc ["devices", "interface"]).foldl (fun nics iface =>
    let nic := nicOfIface iface
    match pyGet nic "mac" with
    | none => nics
    | some macv => pySet nics (match macv with | .vstr s => s | _ => "") (.vdict nic))
    []

/-- `_get_disks` (domain.py:379-418).  The `qemu-img info` subprocess together
with stdout decoding and JSON parsing is modelled by the oracle `qemu`, which
returns the parsed per-layer list or raises a Python exception.  Only
`TypeError` is caught by the source's `except TypeError` clause; any other
exception propagates out of `_get_disks`. -/
def _get_disks (qemu : String → Except PyErr (List QemuImgLayer)) (doc : XmlNode) :
    Except PyErr Dict :=
  (findallPath doc ["devices", "disk"]).foldlM (fun disks el =>
    match findPath el ["source"] with
    | none => .ok disks
    | some source =>
      match findPath el ["target"] with
      | none => .ok disks
      | some target =>
        if target.attrib.any (fun p => p.1 == "dev") then
          let qemu_target := (source.getAttr "file").getD ""
          let qemu_target := if qemu_target == "" then (source.getAttr "dev").getD ""
            else qemu_target
          let qemu_target := if qemu_target == "" &&
              source.attrib.any (fun p => p.1 == "protocol") &&
              source.attrib.any (fun p => p.1 == "name")
            then (source.getAttr "protocol").getD "" ++ ":" ++ (source.getAttr "name").getD ""
            else qemu_target
          if qemu_target == "" then .ok disks
          else
            let disk : Dict := [("file", .vstr qemu_target), ("type", optStr (el.getAttr "device"))]
            let diskRes : Except PyErr Dict :=
              match findPath el ["driver"] with
              | some driver =>
                if driver.getAttr "type" == some "qcow2" then
                  match (do
                      let raws ← qemu qemu_target
                      _parse_qemu_img_info raws : Except PyErr Dict) with
                  | .ok output => .ok (pyUpdate disk output)
                  | .error .typeError => .ok (pySet disk "file" (.vstr "Does not exist"))
                  | .error e => .error e
                else .ok disk
              | none => .ok disk
            match diskRes with
            | .ok d => .ok (pySet disks ((target.getAttr "dev").getD "") (.vdict d))
            | .error e => .error e
        else .ok disks)
    ([] : Dict)

/-- The `_info` closure of `info` (domain.py:164-180): per-domain descriptor.
The dictionary-literal values are evaluated in source order, so a `_get_disks`
error propagates before a `_get_uuid` one.  `dom.info()` always yields a
5-tuple, so the positional accesses are modelled with `getD`. -/
def _info (qemu : String → Except PyErr (List QemuImgLayer)) (dom : Dom) :
    Except PyErr Dict := do
  let raw := dom.infoRaw
  let disks ← _get_disks qemu dom.xmlDesc
  let uuid ← _get_uuid dom.xmlDesc
  .ok [("cpu", .vint (raw.getD 3 0)),
       ("cputime", .vint (raw.getD 4 0)),
       ("disks", .vdict disks),
       ("graphics", .vdict (_get_graphics dom.xmlDesc)),
       ("nics", .vdict (_get_nics dom.xmlDesc)),
       ("uuid", uuid),
       ("on_crash", _get_on_crash dom.xmlDesc),
       ("on_reboot", _get_on_reboot dom.xmlDesc),
       ("on_poweroff", _get_on_poweroff dom.xmlDesc),
       ("maxMem", .vint (raw.getD 1 0)),
       ("mem", .vint (raw.getD 2 0)),
       ("state", .vstr (virtStateName (raw.getD 0 0)))]

end VirtDomain

/-- A libvirt connection handle: the data its modelled query methods return.
`domainsID` is `conn.listDomainsID()`, `idName` composes
`conn.lookupByID(id).name()`, `definedDomains` is `conn.listDefinedDomains()`,
`domByName` is `conn.lookupByName(name)`, `nodeRaw` is `conn.getInfo()`,
`libVersion` is `conn.getLibVersion()`, and `poolCapsDoc` is the parsed
`conn.getStoragePoolCapabilities()` document (`none` when the connection
class lacks that attribute). -/
structure Conn where
  domainsID : List Int
  idName : Int → String
  definedDomains : List String
  domByName : String → Dom
  nodeRaw : List Pv
  libVersion : Int
  poolCapsDoc : Option XmlNode

/-- The contents of the host environment consulted by hypervisor detection:
`procModules` is the text of `/proc/modules` (`none`: IOError on open/read),
`virtualSubtype` is `hub.grains.GRAINS['virtual_subtype']` (`none`: KeyError),
and `psStdout` is `(await hub.exec.cmd.run(hub.grains.GRAINS['ps']))['stdout']`. -/
structure HostEnv where
  procModules : Option String
  virtualSubtype : Option String
  psStdout : String

/-- The full environment of one module call: connection acquisition
(`hub.exec.virt.util.get_conn`, which either returns a handle or raises), the
`qemu-img info` oracle (subprocess + decode + JSON parse), and the host data. -/
structure Env where
  getConn : Except PyErr Conn
  qemu : String → Except PyErr (List QemuImgLayer)
  host : HostEnv

/-- The shared `try: ... finally: conn.close()` shape of the module
operations: the `Bool` component records that `conn.close()` ran; both the
normal and the exceptional exit pass through the `finally` clause, after which
the body's outcome is returned or re-raised. -/
def tryFinallyClose {α : Type} (body : Except PyErr α) : Except PyErr α × Bool :=
  match body with
  | .ok v => (.ok v, true)
  | .error e => (.error e, true)

namespace VirtDomain

/-- Result of `_get_domain`: the bare handle / list convention of
domain.py:270 (`len(ret) == 1 and not iterable and ret[0] or ret`). -/
inductive DomRet where
  | one (d : Dom)
  | many (ds : List Dom)

/-- Iterating over a `_get_domain` result (a single handle never reaches the
iterating callers, which all pass `iterable=True`). -/
def DomRet.asList : DomRet → List Dom
  | .one d => [d]
  | .many ds => ds

/-- The active+inactive name discovery of `_get_domain` (domain.py:246-253). -/
def all_vms (conn : Conn) (active inactive : Bool) : List String :=
  (if active then conn.domainsID.map conn.idName else []) ++
  (if inactive then conn.definedDomains else [])

/-- `_get_domain` (domain.py:233-270). -/
def _get_domain (conn : Conn) (vms : List String) (iterable active inactive : Bool) :
    Except PyErr DomRet :=
  let all := all_vms conn active inactive
  if all.isEmpty then
    .error (.exception "No virtual machines found.")
  else do
    let lookup_vms ←
      if vms.isEmpty then (.ok all : Except PyErr (List String))
      else vms.foldlM (fun acc n =>
        if all.contains n then .ok (acc ++ [n])
        else .error (.exception ("The VM \"" ++ n ++ "\" is not present"))) ([] : List String)
    let ret := lookup_vms.map conn.domByName
    match ret with
    | [d] => .ok (if iterable then .many [d] else .one d)
    | _ => .ok (.many ret)

/-- `list_all` (domain.py:29-56). -/
def list_all (env : Env) : Except PyErr (List String) × Bool :=
  match env.getConn with
  | .error e => (.error e, false)
  | .ok conn => tryFinallyClose (do
      let r ← _get_domain conn [] true true true
      .ok (r.asList.map Dom.name))

/-- `list_active` (domain.py:59-80): `_get_domain(conn, iterable=True,
inactive=False)`. -/
def list_active (env : Env) : Except PyErr (List String) × Bool :=
  match env.getConn with
  | .error e => (.error e, false)
  | .ok conn => tryFinallyClose (do
      let r ← _get_domain conn [] true true false
      .ok (r.asList.map Dom.name))

/-- `list_inactive` (domain.py:83-104): `_get_domain(conn, iterable=True,
active=False)`. -/
def list_inactive (env : Env) : Except PyErr (List String) × Bool :=
  match env.getConn with
  | .error e => (.error e, false)
  | .ok conn => tryFinallyClose (do
      let r ← _get_domain conn [] true false true
      .ok (r.asList.map Dom.name))

/-- `get_xml` (domain.py:107-129) for a domain given by name (the
`isinstance(vm_, libvirt.virDomain)` branch is outside the modelled surface;
the XML description is returned in parsed form).  Calling `XMLDesc` on a list
result would raise AttributeError, but a one-name lookup always yields a bare
handle. -/
def get_xml (env : Env) (vm : String) : Except PyErr XmlNode × Bool :=
  match env.getConn with
  | .error e => (.error e, false)
  | .ok conn => tryFinallyClose (do
      let r ← _get_domain conn [vm] false true true
      match r with
      | .one d => .ok d.xmlDesc
      | .many _ => .error .attributeError)

/-- `info` (domain.py:132-191).  `if vm_:` treats both `None` and the empty
string as the all-domains branch. -/
def info (env : Env) (vm : Option String) : Except PyErr Dict × Bool :=
  match env.getConn with
  | .error e => (.error e, false)
  | .ok conn =>
    let allBranch : Except PyErr Dict := do
      let r ← _get_domain conn [] true true true
      r.asList.foldlM (fun acc d => do
        let i ← _info env.qemu d
        .ok (pySet acc d.name (.vdict i))) ([] : Dict)
    let oneBranch : String → Except PyErr Dict := fun v => do
      let r ← _get_domain conn [v] false true true
      match r with
      | .one d => do
          let i ← _info env.qemu d
          .ok [(v, Pv.vdict i)]
      | .many _ => .error .attributeError
    tryFinallyClose (match vm with
      | some v => if v == "" then allBranch else oneBranch v
      | none => allBranch)

/-- The `_info` closure of `state` (domain.py:212-219): just the state name. -/
def _state_info (dom : Dom) : Pv :=
  .vstr (virtStateName (dom.infoRaw.getD 0 0))

/-- `state` (domain.py:194-230). -/
def state (env : Env) (vm : Option String) : Except PyErr Dict × Bool :=
  match env.getConn with
  | .error e => (.error e, false)
  | .ok conn =>
    let allBranch : Except PyErr Dict := do
      let r ← _get_domain conn [] true true true
      .ok (r.asList.foldl (fun acc d => pySet acc d.name (_state_info d)) ([] : Dict))
    let oneBranch : String → Except PyErr Dict := fun v => do
      let r ← _get_domain conn [v] false true true
      match r with
      | .one d => .ok [(v, _state_info d)]
      | .many _ => .error .attributeError
    tryFinallyClose (match vm with
      | some v => if v == "" then allBranch else oneBranch v
      | none => allBranch)

end VirtDomain

namespace VirtNode

/-- `_node_info` (node.py:178-191): positional mapping of the `conn.getInfo()`
8-tuple, keys in the source's literal order.  The tuple always has 8 entries,
so positional accesses are modelled with `getD`. -/
def _node_info (conn : Conn) : Dict :=
  let raw := conn.nodeRaw
  [("cpucores", raw.getD 6 .vnone),
   ("cpumhz", raw.getD 3 .vnone),
   ("cpumodel", raw.getD 0 .vnone),
   ("cpus", raw.getD 2 .vnone),
   ("cputhreads", raw.getD 7 .vnone),
   ("numanodes", raw.getD 4 .vnone),
   ("phymemory", raw.getD 1 .vnone),
   ("sockets", raw.getD 5 .vnone)]

/-- `_is_kvm_hyper` (node.py:222-233): `/proc/modules` must contain `kvm_`
(an unreadable file — IOError — reports `False`), and the process listing
stdout must contain `libvirtd`. -/
def _is_kvm_hyper (h : HostEnv) : Bool :=
  match h.procModules with
  | none => false
  | some content =>
    if !(strIn "kvm_" content) then false
    else strIn "libvirtd" h.psStdout

/-- `_is_xen_hyper` (node.py:236-253): the `virtual_subtype` grain must equal
`Xen Dom0` (a missing grain — KeyError — reports `False`), `/proc/modules`
must contain `xen_` (unreadable file reports `False`), and the process
listing stdout must contain `libvirtd`. -/
def _is_xen_hyper (h : HostEnv) : Bool :=
  match h.virtualSubtype with
  | none => false
  | some sub =>
    if sub != "Xen Dom0" then false
    else match h.procModules with
      | none => false
      | some content =>
        if !(strIn "xen_" content) then false
        else strIn "libvirtd" h.psStdout

/-- `get_hypervisor` (node.py:28-47): evaluate the fixed strategy list
`['kvm', 'xen']` (dispatching on the name to `_is_{}_hyper`), keep the
matching names, return the first or `None`. -/
def get_hypervisor (h : HostEnv) : Option String :=
  let result := ["kvm", "xen"].filter (fun hyper =>
    if hyper == "kvm" then _is_kvm_hyper h else _is_xen_hyper h)
  result.head?

/-- One entry of the static `common_drivers` table of `pool_capabilities`
(node.py:80-138); keys absent from the source's dictionary are `none`. -/
structure Backend where
  name : String
  version : Option Int := none
  hypervisors : Option (List String) := none
  default_source_format : Option String := none
  source_formats : Option (List String) := none
  default_target_format : Option String := none
  target_formats : Option (List String) := none
deriving DecidableEq, Repr

/-- `all_hypervisors` (node.py:77). -/
def all_hypervisors : List String := ["xen", "kvm", "bhyve"]

/-- `images_formats` (node.py:78-79). -/
def images_formats : List String :=
  ["none", "raw", "dir", "bochs", "cloop", "dmg", "iso", "vpc", "vdi",
   "fat", "vhd", "ploop", "cow", "qcow", "qcow2", "qed", "vmdk"]

/-- `common_drivers` (node.py:80-138). -/
def common_drivers : List Backend :=
  [{ name := "fs", default_source_format := some "auto",
     source_formats := some ["auto", "ext2", "ext3", "ext4", "ufs", "iso9660", "udf",
       "gfs", "gfs2", "vfat", "hfs+", "xfs", "ocfs2"],
     default_target_format := some "raw", target_formats := some images_formats },
   { name := "dir", default_target_format := some "raw",
     target_formats := some images_formats },
   { name := "iscsi" },
   { name := "scsi" },
   { name := "logical", default_source_format := some "lvm2",
     source_formats := some ["unknown", "lvm2"] },
   { name := "netfs", default_source_format := some "auto",
     source_formats := some ["auto", "nfs", "glusterfs", "cifs"],
     default_target_format := some "raw", target_formats := some images_formats },
   { name := "disk", default_source_format := some "unknown",
     source_formats := some ["unknown", "dos", "dvh", "gpt", "mac", "bsd", "pc98",
       "sun", "lvm2"],
     default_target_format := some "none",
     target_formats := some ["none", "linux", "fat16", "fat32", "linux-swap",
       "linux-lvm", "linux-raid", "extended"] },
   { name := "mpath" },
   { name := "rbd", default_target_format := some "raw", target_formats := some [] },
   { name := "sheepdog", version := some 10000, hypervisors := some ["kvm"],
     default_target_format := some "raw", target_formats := some images_formats },
   { name := "gluster", version := some 1002000, hypervisors := some ["kvm"],
     default_target_format := some "raw", target_formats := some images_formats },
   { name := "zfs", version := some 1002008, hypervisors := some ["bhyve"] },
   { name := "iscsi-direct", version := some 4007000, hypervisors := some ["kvm", "xen"] }]

/-- Python truthiness of the optional `version` entry
(`not backend.get('version')`): absent or zero is falsy. -/
def versionTruthy : Option Int → Bool
  | none => false
  | some v => v != 0

/-- Lift an optional string list to a Python value. -/
def optStrList : Option (List String) → Pv
  | some l => .vlist (l.map Pv.vstr)
  | none => .vnone

/-- Python `is not None` on a modelled value. -/
def notVnone : Pv → Bool
  | .vnone => false
  | _ => true

/-- `_get_backend_output` (node.py:143-167): the `supported` flag is the
conjunction of the version requirement (absent or zero version is always met)
and membership of the detected hypervisor in the backend's compatible set
(defaulting to `all_hypervisors`; a `None` hypervisor is never a member).
Option groups whose values are all `None` are dropped, and the `options`
entry is dropped when both groups were. -/
def _get_backend_output (libvirt_version : Int) (hypervisor : Option String)
    (backend : Backend) : Dict :=
  let supported := (!(versionTruthy backend.version) ||
      decide (backend.version.getD 0 ≤ libvirt_version)) &&
    (match hypervisor with
     | some hv => (backend.hypervisors.getD all_hypervisors).contains hv
     | none => false)
  let poolGroup : Dict :=
    [("default_format", optStr backend.default_source_format),
     ("sourceFormatType", optStrList backend.source_formats)]
  let volGroup : Dict :=
    [("default_format", optStr backend.default_target_format),
     ("targetFormatType", optStrList backend.target_formats)]
  let keepPool := (poolGroup.filter (fun p => notVnone p.2)).length != 0
  let keepVol := (volGroup.filter (fun p => notVnone p.2)).length != 0
  let options : Dict := (if keepPool then [("pool", Pv.vdict poolGroup)] else []) ++
    (if keepVol then [("volume", Pv.vdict volGroup)] else [])
  [("name", .vstr backend.name), ("supported", .vbool supported)] ++
    (if options.length != 0 then [("options", Pv.vdict options)] else [])

/-- The inner `_parse_pool_caps` of `_parse_pools_caps` (node.py:198-217).
The source compares `option_kind is not 'vol'` with `is`, which CPython's
string interning makes behave as inequality; it is modelled as inequality.
An enum without a `name` attribute would be keyed by `None` in Python; that
corner is modelled by the empty-string key. -/
def _parse_pool_caps (pool : XmlNode) : Dict :=
  let base : Dict :=
    [("name", optStr (pool.getAttr "type")),
     ("supported", .vbool ((pool.getAttr "supported").getD "no" == "yes"))]
  ["pool", "vol"].foldl (fun pool_caps option_kind =>
    let options : Dict :=
      match findPath pool [option_kind ++ "Options", "defaultFormat"] with
      | some n => [("default_format", optStr (n.getAttr "type"))]
      | none => []
    let options_enums : Dict :=
      (findallPath pool [option_kind ++ "Options", "enum"]).map (fun en =>
        ((en.getAttr "name").getD "",
         Pv.vlist ((findallPath en ["value"]).map (fun v => optStr v.text))))
    let options := pyUpdate options options_enums
    if options.length != 0 then
      let kind := if option_kind == "vol" then "volume" else option_kind
      match pyGet pool_caps "options" with
      | some (.vdict opts) => pySet pool_caps "options" (.vdict (pySet opts kind (.vdict options)))
      | _ => pySet pool_caps "options" (.vdict [(kind, Pv.vdict options)])
    else pool_caps) base

/-- `_parse_pools_caps` (node.py:194-219). -/
def _parse_pools_caps (doc : XmlNode) : List Pv :=
  (findallPath doc ["pool"]).map (fun p => Pv.vdict (_parse_pool_caps p))

/-- `info` (node.py:6-25). -/
def info (env : Env) : Except PyErr Dict × Bool :=
  match env.getConn with
  | .error e => (.error e, false)
  | .ok conn => tryFinallyClose (.ok (_node_info conn))

/-- `pool_capabilities` (node.py:50-175).  Unlike the other operations the
`get_conn` call sits inside the `try` block: when acquisition fails, the
`finally` clause references the still-unbound `conn` and raises a NameError
without any connection having been opened or closed.  Once the connection is
acquired the body is exception-free in this model; the `finally` clause
closes the connection and the result dictionary is built afterwards. -/
def pool_capabilities (env : Env) : Except PyErr Pv × Bool :=
  match env.getConn with
  | .error _ => (.error .nameError, false)
  | .ok conn =>
    let has_pool_capabilities := conn.poolCapsDoc.isSome
    let pool_types : List Pv :=
      match conn.poolCapsDoc with
      | some caps => _parse_pools_caps caps
      | none =>
        let libvirt_version := conn.libVersion
        let hypervisor := get_hypervisor env.host
        common_drivers.map (fun b => Pv.vdict (_get_backend_output libvirt_version hypervisor b))
    let (res, closed) := tryFinallyClose (.ok pool_types : Except PyErr (List Pv))
    (res.map (fun pts => Pv.vdict
      [("computed", .vbool (!has_pool_capabilities)),
       ("pool_types", .vlist pts)]), closed)

end VirtNode

/-- The state code table of `info`/`state` agrees with the spec's fixed table
{0,1,2 -> running; 3 -> paused; 4,5 -> shutdown; 6 -> crashed; else unknown}. -/
theorem virtStateName_eq_table (s : Int) :
    VirtDomain.virtStateName s =
      (if s = 0 ∨ s = 1 ∨ s = 2 then "running" else if s = 3 then "paused"
       else if s = 4 ∨ s = 5 then "shutdown" else if s = 6 then "crashed"
       else "unknown") := by
  by_cases h0 : s = 0
  · subst h0; decide
  by_cases h1 : s = 1
  · subst h1; decide
  by_cases h2 : s = 2
  · subst h2; decide
  by_cases h3 : s = 3
  · subst h3; decide
  by_cases h4 : s = 4
  · subst h4; decide
  by_cases h5 : s = 5
  · subst h5; decide
  by_cases h6 : s = 6
  · subst h6; decide
  have e0 : ((0 : Int) == s) = false := beq_eq_false_iff_ne.mpr (Ne.symm h0)
  have e1 : ((1 : Int) == s) = false := beq_eq_false_iff_ne.mpr (Ne.symm h1)
  have e2 : ((2 : Int) == s) = false := beq_eq_false_iff_ne.mpr (Ne.symm h2)
  have e3 : ((3 : Int) == s) = false := beq_eq_false_iff_ne.mpr (Ne.symm h3)
  have e4 : ((4 : Int) == s) = false := beq_eq_false_iff_ne.mpr (Ne.symm h4)
  have e5 : ((5 : Int) == s) = false := beq_eq_false_iff_ne.mpr (Ne.symm h5)
  have e6 : ((6 : Int) == s) = false := beq_eq_false_iff_ne.mpr (Ne.symm h6)
  simp [VirtDomain.virtStateName, VirtDomain.VIRT_STATE_NAME_MAP, List.find?,
    h0, h1, h2, h3, h4, h5, h6, e0, e1, e2, e3, e4, e5, e6]

/-- C1: for every domain whose raw info tuple is
`[state, maxMem, mem, cpu, cputime, ...]`, the descriptor produced by the
`_info` closure of the `info` operation (whenever it is produced) satisfies
`cpu == raw[3]`, `cputime == raw[4]`, `maxMem == raw[1]`, `mem == raw[2]`,
and `state` is the image of `raw[0]` under the fixed table
{0,1,2 -> running; 3 -> paused; 4,5 -> shutdown; 6 -> crashed;
else -> unknown}. -/
theorem c1_info_fields (st mm me cp ct : Int) (rest : List Int) (nm : String)
    (xml : XmlNode) (qemu : String → Except PyErr (List QemuImgLayer)) (d : Dict)
    (h : VirtDomain._info qemu ⟨nm, st :: mm :: me :: cp :: ct :: rest, xml⟩ = .ok d) :
    pyGet d "cpu" = some (.vint cp) ∧
    pyGet d "cputime" = some (.vint ct) ∧
    pyGet d "maxMem" = some (.vint mm) ∧
    pyGet d "mem" = some (.vint me) ∧
    pyGet d "state" = some (.vstr
      (if st = 0 ∨ st = 1 ∨ st = 2 then "running" else if st = 3 then "paused"
       else if st = 4 ∨ st = 5 then "shutdown" else if st = 6 then "crashed"
       else "unknown")) := by
  cases hd : VirtDomain._get_disks qemu xml with
  | error e => simp [VirtDomain._info, hd, Except.instMonad, Except.bind] at h
  | ok dk =>
    cases hu : VirtDomain._get_uuid xml with
    | error e => simp [VirtDomain._info, hd, hu, Except.instMonad, Except.bind] at h
    | ok u =>
      simp only [VirtDomain._info, hd, hu, Except.instMonad, Except.bind, bind] at h
      cases h
      refine ⟨rfl, rfl, rfl, rfl, ?_⟩
      rw [← virtStateName_eq_table st]
      rfl

/-- Fixture: a domain XML document with a `uuid` element and no devices. -/
def xmlUuidOnly : XmlNode := .elem "domain" [] none [.elem "uuid" [] (some "u-1") []]

/-- Fixture: a `qemu-img` oracle that always raises TypeError (never consulted
for a domain without disks). -/
def qemuTypeErr : String → Except PyErr (List QemuImgLayer) := fun _ => .error .typeError

/-- The descriptor `_info` computes for the C1 witness input. -/
def c1d : Dict :=
  [("cpu", .vint 2), ("cputime", .vint 9999), ("disks", .vdict []),
   ("graphics", .vdict [("autoport", .vstr "None"), ("keymap", .vstr "None"),
     ("listen", .vstr "None"), ("port", .vstr "None"), ("type", .vstr "None")]),
   ("nics", .vdict []), ("uuid", .vstr "u-1"), ("on_crash", .vstr ""),
   ("on_reboot", .vstr ""), ("on_poweroff", .vstr ""), ("maxMem", .vint 1024),
   ("mem", .vint 512), ("state", .vstr "running")]

/-- Witness for C1 at the concrete raw tuple `[1, 1024, 512, 2, 9999]`. -/
theorem c1_info_fields_witness :
    pyGet c1d "cpu" = some (.vint 2) ∧
    pyGet c1d "cputime" = some (.vint 9999) ∧
    pyGet c1d "maxMem" = some (.vint 1024) ∧
    pyGet c1d "mem" = some (.vint 512) ∧
    pyGet c1d "state" = some (.vstr
      (if (1 : Int) = 0 ∨ (1 : Int) = 1 ∨ (1 : Int) = 2 then "running"
       else if (1 : Int) = 3 then "paused"
       else if (1 : Int) = 4 ∨ (1 : Int) = 5 then "shutdown"
       else if (1 : Int) = 6 then "crashed" else "unknown")) :=
  c1_info_fields 1 1024 512 2 9999 [] "vm1" xmlUuidOnly qemuTypeErr c1d rfl

/-- C9: the node summary is a pure positional permutation of the raw
`getInfo()` tuple (`cpumodel = raw[0]`, `phymemory = raw[1]`, `cpus = raw[2]`,
`cpumhz = raw[3]`, `numanodes = raw[4]`, `sockets = raw[5]`,
`cpucores = raw[6]`, `cputhreads = raw[7]`), and on the concrete tuple
`['x86_64', 4096, 8, 2712, 1, 2, 4, 2]` the output is exactly the mapping
{cpumodel: x86_64, phymemory: 4096, cpus: 8, cpumhz: 2712, numanodes: 1,
sockets: 2, cpucores: 4, cputhreads: 2}. -/
theorem c9_node_info_positional :
    (∀ (a b c d e f g h : Pv) (dids : List Int) (idn : Int → String)
       (dd : List String) (dbn : String → Dom) (lv : Int) (pc : Option XmlNode),
      VirtNode._node_info ⟨dids, idn, dd, dbn, [a, b, c, d, e, f, g, h], lv, pc⟩ =
        [("cpucores", g), ("cpumhz", d), ("cpumodel", a), ("cpus", c),
         ("cputhreads", h), ("numanodes", e), ("phymemory", b), ("sockets", f)]) ∧
    (let raw : List Pv := [.vstr "x86_64", .vint 4096, .vint 8, .vint 2712,
       .vint 1, .vint 2, .vint 4, .vint 2]
     let out := VirtNode._node_info ⟨[], fun _ => "", [], fun _ => ⟨"", [], .elem "d" [] none []⟩,
       raw, 0, none⟩
     pyGet out "cpumodel" = some (.vstr "x86_64") ∧
     pyGet out "phymemory" = some (.vint 4096) ∧
     pyGet out "cpus" = some (.vint 8) ∧
     pyGet out "cpumhz" = some (.vint 2712) ∧
     pyGet out "numanodes" = some (.vint 1) ∧
     pyGet out "sockets" = some (.vint 2) ∧
     pyGet out "cpucores" = some (.vint 4) ∧
     pyGet out "cputhreads" = some (.vint 2) ∧
     out.map Prod.fst = ["cpucores", "cpumhz", "cpumodel", "cpus", "cputhreads",
       "numanodes", "phymemory", "sockets"]) :=
  ⟨fun _ _ _ _ _ _ _ _ _ _ _ _ _ _ => rfl, by decide⟩

/-- C3: whenever the combined active+inactive name set discovered from the
connection is empty, `_get_domain` fails with the "no virtual machines"
error for every set of requested names and every flag combination (the
missing-name check is never reached), and consequently so does the
`info` operation once its connection is acquired. -/
theorem c3_empty_enumeration :
    (∀ (conn : Conn) (vms : List String) (iterable active inactive : Bool),
      VirtDomain.all_vms conn active inactive = [] →
      VirtDomain._get_domain conn vms iterable active inactive =
        .error (.exception "No virtual machines found.")) ∧
    (∀ (env : Env) (conn : Conn) (vm : Option String),
      env.getConn = .ok conn →
      VirtDomain.all_vms conn true true = [] →
      VirtDomain.info env vm =
        (.error (.exception "No virtual machines found."), true)) := by
  have hmain : ∀ (conn : Conn) (vms : List String) (iterable active inactive : Bool),
      VirtDomain.all_vms conn active inactive = [] →
      VirtDomain._get_domain conn vms iterable active inactive =
        .error (.exception "No virtual machines found.") := by
    intro conn vms iterable active inactive h
    simp [VirtDomain._get_domain, h]
  refine ⟨hmain, ?_⟩
  intro env conn vm h1 h2
  cases vm with
  | none =>
    simp [VirtDomain.info, h1, hmain conn [] true true true h2,
      Except.instMonad, Except.bind, tryFinallyClose]
  | some v =>
    by_cases hv : v == ""
    · simp [VirtDomain.info, h1, hv, hmain conn [] true true true h2,
        Except.instMonad, Except.bind, tryFinallyClose]
    · simp [VirtDomain.info, h1, hv, hmain conn [v] false true true h2,
        Except.instMonad, Except.bind, tryFinallyClose]

/-- Fixture: a connection with no active and no defined domains. -/
def emptyConn : Conn :=
  ⟨[], fun _ => "", [], fun _ => ⟨"x", [], .elem "domain" [] none []⟩, [], 0, none⟩

/-- Fixture: an environment whose connection acquisition yields `emptyConn`. -/
def emptyEnv : Env := ⟨.ok emptyConn, qemuTypeErr, ⟨none, none, ""⟩⟩

/-- Witness for C3: on a connection with no domains, looking up the name
`vm9` fails with the "no virtual machines" error, also through `info`. -/
theorem c3_empty_enumeration_witness :
    VirtDomain._get_domain emptyConn ["vm9"] false true true =
      .error (.exception "No virtual machines found.") ∧
    VirtDomain.info emptyEnv (some "vm9") =
      (.error (.exception "No virtual machines found."), true) :=
  ⟨c3_empty_enumeration.1 emptyConn ["vm9"] false true true rfl,
   c3_empty_enumeration.2 emptyEnv emptyConn (some "vm9") rfl rfl⟩

/-- Both exits of a `try ... finally conn.close()` body run the close. -/
theorem tryFinallyClose_closed {α : Type} (b : Except PyErr α) :
    (tryFinallyClose b).2 = true := by
  cases b <;> rfl

/-- C2: for every public operation that acquires a libvirt connection
(`list_all`, `list_active`, `list_inactive`, `get_xml`, `info`, `state` in
the domain module; `info` and `pool_capabilities` in the node module),
whenever connection acquisition succeeds the connection is closed on every
exit path — the result component may still carry the body's error, but the
close flag is set regardless of the body's outcome. -/
theorem c2_connection_closed (env : Env) (conn : Conn)
    (h : env.getConn = .ok conn) :
    (∀ vm, (VirtDomain.info env vm).2 = true) ∧
    (∀ vm, (VirtDomain.state env vm).2 = true) ∧
    (∀ vm, (VirtDomain.get_xml env vm).2 = true) ∧
    (VirtDomain.list_all env).2 = true ∧
    (VirtDomain.list_active env).2 = true ∧
    (VirtDomain.list_inactive env).2 = true ∧
    (VirtNode.info env).2 = true ∧
    (VirtNode.pool_capabilities env).2 = true := by
  refine ⟨?_, ?_, ?_, ?_, ?_, ?_, ?_, ?_⟩
  · intro vm
    simp only [VirtDomain.info, h]
    apply tryFinallyClose_closed
  · intro vm
    simp only [VirtDomain.state, h]
    apply tryFinallyClose_closed
  · intro vm
    simp only [VirtDomain.get_xml, h]
    apply tryFinallyClose_closed
  · simp only [VirtDomain.list_all, h]
    apply tryFinallyClose_closed
  · simp only [VirtDomain.list_active, h]
    apply tryFinallyClose_closed
  · simp only [VirtDomain.list_inactive, h]
    apply tryFinallyClose_closed
  · simp only [VirtNode.info, h]
    apply tryFinallyClose_closed
  · simp only [VirtNode.pool_capabilities, h]
    simp [tryFinallyClose]

/-- Fixture: a domain named `vm1`. -/
def sampleDom : Dom := ⟨"vm1", [1, 1024, 512, 2, 9999], xmlUuidOnly⟩

/-- Fixture: a connection exposing the single active domain `vm1`. -/
def sampleConn : Conn :=
  ⟨[0], fun _ => "vm1", [], fun _ => sampleDom,
   [.vstr "x86_64", .vint 4096, .vint 8, .vint 2712, .vint 1, .vint 2, .vint 4, .vint 2],
   5000000, none⟩

/-- Fixture: an environment whose connection acquisition yields `sampleConn`. -/
def sampleEnv : Env := ⟨.ok sampleConn, qemuTypeErr, ⟨none, none, ""⟩⟩

/-- Witness for C2 on a concrete environment with one domain. -/
theorem c2_connection_closed_witness :
    (VirtDomain.info sampleEnv (some "vm1")).2 = true ∧
    (VirtDomain.state sampleEnv (some "vm1")).2 = true ∧
    (VirtDomain.get_xml sampleEnv "vm1").2 = true ∧
    (VirtDomain.list_all sampleEnv).2 = true ∧
    (VirtDomain.list_active sampleEnv).2 = true ∧
    (VirtDomain.list_inactive sampleEnv).2 = true ∧
    (VirtNode.info sampleEnv).2 = true ∧
    (VirtNode.pool_capabilities sampleEnv).2 = true :=
  ⟨(c2_connection_closed sampleEnv sampleConn rfl).1 (some "vm1"),
   (c2_connection_closed sampleEnv sampleConn rfl).2.1 (some "vm1"),
   (c2_connection_closed sampleEnv sampleConn rfl).2.2.1 "vm1",
   (c2_connection_closed sampleEnv sampleConn rfl).2.2.2.1,
   (c2_connection_closed sampleEnv sampleConn rfl).2.2.2.2.1,
   (c2_connection_closed sampleEnv sampleConn rfl).2.2.2.2.2.1,
   (c2_connection_closed sampleEnv sampleConn rfl).2.2.2.2.2.2.1,
   (c2_connection_closed sampleEnv sampleConn rfl).2.2.2.2.2.2.2⟩

/-- The `supported` entry of a synthesized pool-capability record is the
conjunction of the version gate and hypervisor membership. -/
theorem get_backend_output_supported (lv : Int) (hyp : Option String) (b : VirtNode.Backend) :
    pyGet (VirtNode._get_backend_output lv hyp b) "supported" =
      some (.vbool ((!(VirtNode.versionTruthy b.version) ||
          decide (b.version.getD 0 ≤ lv)) &&
        (match hyp with
         | some hv => (b.hypervisors.getD VirtNode.all_hypervisors).contains hv
         | none => false))) := by
  simp [VirtNode._get_backend_output, pyGet, List.find?]

/-- C7: hypervisor detection evaluates the two fixed strategies in order
{kvm, xen} and returns the name of the first matching strategy or `None`;
`/proc/modules` containing `kvm_virtio` with a `libvirtd is running` stdout
detects kvm; the same modules with an empty stdout detect nothing; modules
`xen_blk` with virtualization subtype `Xen Dom0` and the running-daemon
stdout detect xen; and an unreadable modules file makes both strategies
report false instead of failing. -/
theorem c7_hypervisor_detection :
    (∀ h : HostEnv, VirtNode.get_hypervisor h =
      (if VirtNode._is_kvm_hyper h then some "kvm"
       else if VirtNode._is_xen_hyper h then some "xen" else none)) ∧
    VirtNode.get_hypervisor ⟨some "kvm_virtio", none, "libvirtd is running"⟩ = some "kvm" ∧
    VirtNode.get_hypervisor ⟨some "kvm_virtio", none, ""⟩ = none ∧
    VirtNode.get_hypervisor ⟨some "xen_blk", some "Xen Dom0", "libvirtd is running"⟩ =
      some "xen" ∧
    (∀ (sub : Option String) (ps : String),
      VirtNode._is_kvm_hyper ⟨none, sub, ps⟩ = false ∧
      VirtNode._is_xen_hyper ⟨none, sub, ps⟩ = false) := by
  refine ⟨?_, by decide, by decide, by decide, ?_⟩
  · intro h
    cases hk : VirtNode._is_kvm_hyper h <;> cases hx : VirtNode._is_xen_hyper h <;>
      simp [VirtNode.get_hypervisor, hk, hx]
  · intro sub ps
    refine ⟨rfl, ?_⟩
    cases sub with
    | none => rfl
    | some s => simp [VirtNode._is_xen_hyper]

/-- C8: in the synthesized pool-capability fallback, a backend carrying a
(positive) minimum version requirement `V` is reported unsupported whenever
the library version is below `V`, even when the detected hypervisor is in
its compatible set; in general `supported` is true exactly when the version
requirement (if any) is met and the detected hypervisor belongs to the
backend's compatible set. -/
theorem c8_backend_version_gate :
    (∀ (b : VirtNode.Backend) (V lv : Int) (hyp : Option String),
      b.version = some V → 0 < V → lv < V →
      pyGet (VirtNode._get_backend_output lv hyp b) "supported" = some (.vbool false)) ∧
    (∀ (b : VirtNode.Backend) (lv : Int) (hyp : Option String),
      pyGet (VirtNode._get_backend_output lv hyp b) "supported" = some (.vbool true) ↔
        ((match b.version with | none => True | some v => v = 0 ∨ v ≤ lv) ∧
         (∃ hv, hyp = some hv ∧ hv ∈ b.hypervisors.getD VirtNode.all_hypervisors))) := by
  constructor
  · intro b V lv hyp hb h0 hlt
    rw [get_backend_output_supported, hb]
    have h1 : V ≠ 0 := by omega
    have h2 : ¬ (V ≤ lv) := by omega
    simp [VirtNode.versionTruthy, h1, h2]
  · intro b lv hyp
    rw [get_backend_output_supported]
    cases hyp with
    | none => simp
    | some hv0 =>
      cases hb : b.version with
      | none => simp [VirtNode.versionTruthy, List.elem_iff]
      | some v => simp [VirtNode.versionTruthy, List.elem_iff, bne_iff_ne]

/-- The `sheepdog` entry of `common_drivers` (node.py:122-128). -/
def sheepdogDriver : VirtNode.Backend :=
  { name := "sheepdog", version := some 10000, hypervisors := some ["kvm"],
    default_target_format := some "raw", target_formats := some VirtNode.images_formats }

/-- Witness for C8: sheepdog (version requirement 10000, compatible only with
kvm) is unsupported at library version 9999 even with hypervisor kvm. -/
theorem c8_backend_version_gate_witness :
    sheepdogDriver.version = some 10000 ∧ (0 : Int) < 10000 ∧ (9999 : Int) < 10000 ∧
    pyGet (VirtNode._get_backend_output 9999 (some "kvm") sheepdogDriver) "supported" =
      some (.vbool false) :=
  ⟨rfl, by decide, by decide,
   c8_backend_version_gate.1 sheepdogDriver 10000 9999 (some "kvm") rfl
     (by decide) (by decide)⟩

/-- C10: in the synthesized fallback of `pool_capabilities`, when hypervisor
detection returns `None` every entry of `pool_types` has `supported = false`
— including drivers with no version requirement and no explicit compatible
list — because membership of the detected hypervisor in the compatible set
is required unconditionally and `None` is never a member. -/
theorem c10_none_hypervisor_unsupported :
    (∀ (lv : Int) (b : VirtNode.Backend), b ∈ VirtNode.common_drivers →
      pyGet (VirtNode._get_backend_output lv none b) "supported" = some (.vbool false)) ∧
    (∀ (env : Env) (conn : Conn), env.getConn = .ok conn → conn.poolCapsDoc = none →
      VirtNode.get_hypervisor env.host = none →
      (VirtNode.pool_capabilities env).1 = .ok (Pv.vdict
        [("computed", .vbool true),
         ("pool_types", .vlist (VirtNode.common_drivers.map (fun b =>
           Pv.vdict (VirtNode._get_backend_output conn.libVersion none b))))])) := by
  constructor
  · intro lv b hb
    fin_cases hb <;> simp [get_backend_output_supported]
  · intro env conn h1 h2 h3
    simp [VirtNode.pool_capabilities, h1, h2, h3, tryFinallyClose, Except.map]

/-- Witness for C10: the version-free, compatibility-free `iscsi` driver is
unsupported when no hypervisor is detected, and `pool_capabilities` on an
environment detecting no hypervisor synthesizes exactly that table. -/
theorem c10_none_hypervisor_unsupported_witness :
    pyGet (VirtNode._get_backend_output 0 none { name := "iscsi" }) "supported" =
      some (.vbool false) ∧
    (VirtNode.pool_capabilities sampleEnv).1 = .ok (Pv.vdict
      [("computed", .vbool true),
       ("pool_types", .vlist (VirtNode.common_drivers.map (fun b =>
         Pv.vdict (VirtNode._get_backend_output sampleConn.libVersion none b))))]) :=
  ⟨c10_none_hypervisor_unsupported.1 0 { name := "iscsi" } (by decide),
   c10_none_hypervisor_unsupported.2 sampleEnv sampleConn rfl rfl rfl⟩

/-- C4: for every parsed backing chain of three layers A (no backing file),
B (backing file = A's path) and C (backing file = B's path), in that
insertion order and with distinct A/B paths, the re-linking pass replaces
B's `backing file` string with A's full descriptor and C's with B's
descriptor carrying its own already-resolved backing field. -/
theorem c4_backing_chain_relink (a b c : QemuImgLayer)
    (ha : a.fullBackingFilename = none)
    (hb : b.fullBackingFilename = some a.filename)
    (hc : c.fullBackingFilename = some b.filename)
    (hab : a.filename ≠ b.filename) :
    VirtDomain.relinkGo []
        [VirtDomain.buildDisk a, VirtDomain.buildDisk b, VirtDomain.buildDisk c] =
      [VirtDomain.buildDisk a,
       pySet (VirtDomain.buildDisk b) "backing file" (.vdict (VirtDomain.buildDisk a)),
       pySet (VirtDomain.buildDisk c) "backing file"
         (.vdict (pySet (VirtDomain.buildDisk b) "backing file"
           (.vdict (VirtDomain.buildDisk a))))] := by
  have hbeq : (a.filename == b.filename) = false := beq_eq_false_iff_ne.mpr hab
  rcases a with ⟨afn, afmt, aas, avs, acs, abf, asn⟩
  rcases b with ⟨bfn, bfmt, bas, bvs, bcs, bbf, bsn⟩
  rcases c with ⟨cfn, cfmt, cas, cvs, ccs, cbf, csn⟩
  simp only at ha hb hc hbeq
  subst ha hb hc
  rcases asn with _ | asnl <;> rcases bsn with _ | bsnl <;> rcases csn with _ | csnl <;>
    simp [VirtDomain.relinkGo, VirtDomain.buildDisk, VirtDomain.findBacking,
      pySet, pyGet, List.find?, List.filter, Pv.beq, optStr, hbeq]

/-- Fixture: backing-chain base layer. -/
def layerA : QemuImgLayer := ⟨"/a.qcow2", "qcow2", 100, 200, none, none, none⟩

/-- Fixture: middle layer backed by `layerA`. -/
def layerB : QemuImgLayer := ⟨"/b.qcow2", "qcow2", 300, 400, some 65536, some "/a.qcow2", none⟩

/-- Fixture: top layer backed by `layerB`. -/
def layerC : QemuImgLayer := ⟨"/c.qcow2", "qcow2", 500, 600, none, some "/b.qcow2", none⟩

/-- Witness for C4 on the concrete three-layer chain A <- B <- C. -/
theorem c4_backing_chain_relink_witness :
    layerA.fullBackingFilename = none ∧
    layerB.fullBackingFilename = some layerA.filename ∧
    layerC.fullBackingFilename = some layerB.filename ∧
    layerA.filename ≠ layerB.filename ∧
    VirtDomain.relinkGo []
        [VirtDomain.buildDisk layerA, VirtDomain.buildDisk layerB,
         VirtDomain.buildDisk layerC] =
      [VirtDomain.buildDisk layerA,
       pySet (VirtDomain.buildDisk layerB) "backing file"
         (.vdict (VirtDomain.buildDisk layerA)),
       pySet (VirtDomain.buildDisk layerC) "backing file"
         (.vdict (pySet (VirtDomain.buildDisk layerB) "backing file"
           (.vdict (VirtDomain.buildDisk layerA))))] :=
  ⟨rfl, rfl, rfl, by decide,
   c4_backing_chain_relink layerA layerB layerC rfl rfl rfl (by decide)⟩

/-- Fixture: a domain XML document with one qcow2 disk at the given source
path and target device. -/
def mkQcow2Dom (path dev : String) : XmlNode :=
  .elem "domain" [] none
    [.elem "devices" [] none
      [.elem "disk" [("device", "disk")] none
        [.elem "source" [("file", path)] none [],
         .elem "target" [("dev", dev)] none [],
         .elem "driver" [("type", "qcow2")] none []]]]

/-- Counterexample to C5 as stated: with the inspection binary absent (the
subprocess raises FileNotFoundError, not TypeError), `_get_disks` propagates
the failure instead of producing the "Does not exist" sentinel descriptor. -/
theorem c5_qcow2_failure_counterexample :
    VirtDomain._get_disks (fun _ => .error .fileNotFound) (mkQcow2Dom "/a.qcow2" "vda") =
      .error .fileNotFound ∧
    (Except.error PyErr.fileNotFound : Except PyErr Dict) ≠
      .ok [("vda", .vdict [("file", .vstr "Does not exist"), ("type", .vstr "disk")])] := by
  refine ⟨rfl, by simp⟩

/-- C5 (amended): for a qcow2 disk only an image-inspection failure raising
TypeError is downgraded to the "Does not exist" sentinel without
propagating; any other failure of the inspection step (FileNotFoundError
when the binary is absent, ValueError on undecodable output, ...) propagates
to the caller. -/
theorem c5_qcow2_failure_handling (path dev : String) (e : PyErr) (hp : path ≠ "") :
    VirtDomain._get_disks (fun _ => .error e) (mkQcow2Dom path dev) =
      (if e = .typeError then
        .ok [(dev, .vdict [("file", .vstr "Does not exist"), ("type", .vstr "disk")])]
       else .error e) := by
  have hbeq : (path == "") = false := beq_eq_false_iff_ne.mpr hp
  by_cases he : e = .typeError
  · subst he
    simp [VirtDomain._get_disks, mkQcow2Dom, findallPath, findPath, XmlNode.children,
      XmlNode.tag, XmlNode.getAttr, XmlNode.attrib, hbeq, pySet, pyGet, optStr,
      List.find?, List.foldlM, Except.instMonad, Except.bind, Except.pure, pure,
      VirtDomain._parse_qemu_img_info]
  · simp [VirtDomain._get_disks, mkQcow2Dom, findallPath, findPath, XmlNode.children,
      XmlNode.tag, XmlNode.getAttr, XmlNode.attrib, hbeq, pySet, pyGet, optStr, he,
      List.find?, List.foldlM, Except.instMonad, Except.bind, Except.pure, pure,
      VirtDomain._parse_qemu_img_info]

/-- Witness for C5 (amended): a TypeError from the inspection step is
downgraded to the sentinel descriptor. -/
theorem c5_qcow2_failure_handling_witness :
    ("/a.qcow2" : String) ≠ "" ∧
    VirtDomain._get_disks (fun _ => .error .typeError) (mkQcow2Dom "/a.qcow2" "vda") =
      (if PyErr.typeError = .typeError then
        .ok [("vda", .vdict [("file", .vstr "Does not exist"), ("type", .vstr "disk")])]
       else .error .typeError) :=
  ⟨by decide, c5_qcow2_failure_handling "/a.qcow2" "vda" .typeError (by decide)⟩

/-- Fixture: a domain XML document with two `devices/graphics` elements whose
attributes overlap. -/
def twoGraphicsXml : XmlNode := .elem "domain" [] none
  [.elem "devices" [] none
    [.elem "graphics" [("type", "vnc"), ("port", "5900")] none [],
     .elem "graphics" [("type", "spice")] none []]]

/-- Counterexample to C6 as stated: on a document with two graphics elements
the output is not the first element's attributes merged over the template —
the second element's `type` attribute overrides the first's. -/
theorem c6_graphics_first_only_counterexample :
    (findallPath twoGraphicsXml ["devices", "graphics"]).head?.map XmlNode.attrib =
      some [("type", "vnc"), ("port", "5900")] ∧
    VirtDomain._get_graphics twoGraphicsXml =
      [("autoport", .vstr "None"), ("keymap", .vstr "None"), ("listen", .vstr "None"),
       ("port", .vstr "5900"), ("type", .vstr "spice")] ∧
    pyUpdate VirtDomain.graphicsTemplate [("type", .vstr "vnc"), ("port", .vstr "5900")] =
      [("autoport", .vstr "None"), ("keymap", .vstr "None"), ("listen", .vstr "None"),
       ("port", .vstr "5900"), ("type", .vstr "vnc")] ∧
    VirtDomain._get_graphics twoGraphicsXml ≠
      pyUpdate VirtDomain.graphicsTemplate [("type", .vstr "vnc"), ("port", .vstr "5900")] := by
  refine ⟨by decide, by decide, by decide, by decide⟩

/-- C6 (amended): the graphics block equals the attributes of ALL
`devices/graphics` elements merged over the five-field template in document
order, later elements overriding earlier ones; in particular when two
elements set the same attribute the second value wins. -/
theorem c6_graphics_merge_all :
    (∀ doc : XmlNode, VirtDomain._get_graphics doc =
      (findallPath doc ["devices", "graphics"]).foldl
        (fun out g => pyUpdate out (g.attrib.map (fun p => (p.1, Pv.vstr p.2))))
        VirtDomain.graphicsTemplate) ∧
    (∀ t1 t2 : String,
      pyGet (VirtDomain._get_graphics (.elem "domain" [] none
        [.elem "devices" [] none
          [.elem "graphics" [("type", t1)] none [],
           .elem "graphics" [("type", t2)] none []]])) "type" = some (.vstr t2)) := by
  constructor
  · intro doc
    simp [VirtDomain._get_graphics, pyUpdate, List.foldl_map]
  · intro t1 t2
    rfl
